import Mathlib

/-!
# Verification of the JBL review-aggregation core

A shallow embedding of the review aggregation and reconciliation logic of the
JBL dashboard repository:

* `useReviewDetail` (frontend detail view): merging the backend response,
  the linked rows and the embedded results payload into one `DetailedReview`
  (`mergeDetailedReview`), and the presentation state machine of
  `ReviewDetailPage` (`renderDetailPage`).
* `HistoryPage`: the client-side filter/sort pipeline over fetched review
  summaries (`historyFilter`, `historySort`) and the response handling of the
  history fetch (`consumeHistoryResponse`).
* the backend aggregate endpoint, which is not part of the repository sources
  and is modelled from the specification (`aggregate`).

Machine strings are Lean `String`s, JSON-ish optional fields are `Option`s,
timestamps are epoch milliseconds as `Nat`, and the external `JSON.parse` is
abstracted as a `String → Option Payload` argument (`none` exactly when the
parse throws).
-/

namespace JBL

open List

/-- One category entry of the AI analysis (`{score, issues, suggestions}`). -/
structure CategoryScore where
  score : Int
  issues : Int
  suggestions : Int
deriving Repr, DecidableEq

/-- The fixed recognized category set of an AI analysis. -/
structure AiCategories where
  performance : CategoryScore
  security : CategoryScore
  maintainability : CategoryScore
  style : CategoryScore
deriving Repr, DecidableEq

/-- AI analysis of a review (table `ai_analysis` / payload sub-field `analysis`). -/
structure AiAnalysis where
  summary : String
  strengths : List String
  improvements : List String
  categories : AiCategories
deriving Repr, DecidableEq

/-- Quality metrics of a review (table `review_metrics` / payload sub-field `metrics`). -/
structure Metrics where
  complexity : Int
  maintainability_index : Int
  cyclomatic_complexity : Int
  cognitive_complexity : Int
  duplicated_lines : Int
  test_coverage : Option Int
deriving Repr, DecidableEq

/-- One detailed issue (table `review_issues` / payload sub-field `issues`). -/
structure Issue where
  id : Int
  type : String
  severity : String
  line : Int
  column_number : Int
  title : String
  message : String
  suggestion : String
  code_snippet : String
  fixed_code : Option String
deriving Repr, DecidableEq

/-- The root review record, matching the `Review` interface of the frontend
(table `reviews`). `created_at` and `completed_at` are epoch milliseconds. -/
structure Review where
  id : String
  user_id : String
  title : String
  description : Option String
  language : String
  review_type : String
  status : String
  score : Option Int
  created_at : Nat
  completed_at : Option Nat
  improvement_rate : Option Int
  lines_of_code : Option Int
  issues : Option Int
  suggestions : Option Int
  github_repo : Option String
  github_path : Option String
deriving Repr, DecidableEq

/-- The embedded results payload of a code submission: loosely-typed JSON whose
recognized sub-fields are `analysis`, `metrics` and `issues`.  A payload may
also carry unrelated data, such as its own `status` field, which the merge
never reads. -/
structure Payload where
  analysis : Option AiAnalysis
  metrics : Option Metrics
  issues : Option (List Issue)
  status : Option String
deriving Repr, DecidableEq

/-- The `results` column of a code submission is JSONB and may hold either an
already structured value or a textual encoding of one. -/
inductive ResultsVal where
  | obj (p : Payload)
  | str (s : String)
deriving Repr, DecidableEq

/-- The `code_data` part of the backend detail response (table `code_reviews`):
the submitted code text plus the optional results blob. -/
structure CodeData where
  code : String
  results : Option ResultsVal
deriving Repr, DecidableEq

/-- The JSON body returned by the backend detail endpoint, as consumed by
`useReviewDetail`: the root review fields spread at top level, plus the
optional `code_data`, `ai_analysis`, `metrics` and `detailed_issues` parts
filled in from the linked tables. -/
structure ReviewData where
  review : Review
  code_data : Option CodeData
  ai_analysis : Option AiAnalysis
  metrics : Option Metrics
  detailed_issues : Option (List Issue)
deriving Repr, DecidableEq

/-- The merged review surfaced to the page, matching the frontend
`DetailedReview` interface. -/
structure DetailedReview where
  review : Review
  code : String
  ai_analysis : Option AiAnalysis
  metrics : Option Metrics
  detailed_issues : Option (List Issue)
deriving Repr, DecidableEq

/-- The payload parse step of `useReviewDetail`:
`if (reviewData.code_data?.results) { parsedResults = typeof r === 'string' ?
JSON.parse(r) : r }` with the parse failure caught locally.  The guard is a JS
truthiness test, so an empty results string is skipped; `jsonParse` abstracts
`JSON.parse`, returning `none` exactly when it throws. -/
def parsedResultsOf (jsonParse : String → Option Payload) (rd : ReviewData) :
    Option Payload :=
  match rd.code_data with
  | none => none
  | some cd =>
    match cd.results with
    | none => none
    | some (.obj p) => some p
    | some (.str s) => if s = "" then none else jsonParse s

/-- The merge step of `useReviewDetail` (the `detailedReview` object literal):
spread the backend response, then set `code` from `code_data?.code || ""`,
`ai_analysis` from `reviewData.ai_analysis || parsedResults?.analysis ||
undefined`, `metrics` likewise, and `detailed_issues` from
`reviewData.detailed_issues || parsedResults?.issues || []`. -/
def mergeDetailedReview (jsonParse : String → Option Payload) (rd : ReviewData) :
    DetailedReview :=
  let parsedResults := parsedResultsOf jsonParse rd
  { review := rd.review
    code := (rd.code_data.map CodeData.code).getD ""
    ai_analysis := rd.ai_analysis <|> parsedResults.bind Payload.analysis
    metrics := rd.metrics <|> parsedResults.bind Payload.metrics
    detailed_issues :=
      some ((rd.detailed_issues <|> parsedResults.bind Payload.issues).getD []) }

/-- Outcome of the detail fetch inside `useReviewDetail`: the HTTP response was
not ok, the decoded body was null, or a review payload was obtained. -/
inductive DetailFetch where
  | httpError (statusText : String)
  | jsonNull
  | ok (rd : ReviewData)

/-- The whole `fetchReview` flow: any thrown error is caught and turned into
the single error message, otherwise the merged review is produced. -/
def useReviewDetailResult (jsonParse : String → Option Payload) :
    DetailFetch → Except String DetailedReview
  | .httpError _ => .error "Failed to fetch review details"
  | .jsonNull => .error "Failed to fetch review details"
  | .ok rd => .ok (mergeDetailedReview jsonParse rd)

/-- JS truthiness of the nullable numeric `review.score` as used in
`review.score && …`: `null`, `undefined` and `0` are falsy. -/
def scoreTruthy : Option Int → Bool
  | none => false
  | some v => v != 0

/-- `getStatusIcon` of `ReviewDetailPage`, abstracted to an icon tag. -/
def getStatusIcon (status : String) : String :=
  if status == "completed" then "check-circle-green"
  else if status == "pending" then "clock-yellow"
  else if status == "failed" then "x-circle-red"
  else "clock-slate"

/-- `getStatusColor` of `ReviewDetailPage`, abstracted to a color tag. -/
def getStatusColor (status : String) : String :=
  if status == "completed" then "green"
  else if status == "pending" then "yellow"
  else if status == "failed" then "red"
  else "slate"

/-- Which parts of `ReviewDetailPage` are rendered. -/
structure DetailRender where
  isError : Bool
  showShell : Bool
  showScoreOverview : Bool
  showAnalysisSection : Bool
  showPendingCard : Bool
  showFailedCard : Bool
  statusIcon : String
  statusColor : String
deriving Repr, DecidableEq

/-- The render state when `ReviewDetailPage` shows the error alert
(`error || !review`). -/
def errorDetailRender : DetailRender :=
  { isError := true
    showShell := false
    showScoreOverview := false
    showAnalysisSection := false
    showPendingCard := false
    showFailedCard := false
    statusIcon := ""
    statusColor := "" }

/-- The non-loading render logic of `ReviewDetailPage`:
`error || !review` shows the error alert; otherwise the review shell is shown
with the score overview gated by
`review.status === "completed" && review.score && review.ai_analysis`,
the AI analysis card by
`review.status === "completed" && review.ai_analysis && review.detailed_issues`,
the pending card by `review.status === "pending"`, and the failed card by
`review.status === "failed"`. -/
def renderDetailPage (error : Option String) (review : Option DetailedReview) :
    DetailRender :=
  match review with
  | none => errorDetailRender
  | some r =>
    if error.isSome then errorDetailRender
    else
      { isError := false
        showShell := true
        showScoreOverview :=
          (r.review.status == "completed") && scoreTruthy r.review.score &&
            r.ai_analysis.isSome
        showAnalysisSection :=
          (r.review.status == "completed") && r.ai_analysis.isSome &&
            r.detailed_issues.isSome
        showPendingCard := r.review.status == "pending"
        showFailedCard := r.review.status == "failed"
        statusIcon := getStatusIcon r.review.status
        statusColor := getStatusColor r.review.status }

/-- The named two-tier field-group resolver proposed by the specification:
`resolveFieldGroup(primary, fallback) → primary ?? fallback ?? unresolved`,
with `none` as the unresolved marker. -/
def resolveFieldGroup {α : Type} (primary fallback : Option α) : Option α :=
  primary <|> fallback

/-- A `code_reviews` row (code storage table). -/
structure CodeReviewRow where
  review_id : String
  user_id : String
  code : String
  results : Option ResultsVal
deriving Repr, DecidableEq

/-- An `ai_analysis` row keyed by review. -/
structure AiAnalysisRow where
  review_id : String
  analysis : AiAnalysis
deriving Repr, DecidableEq

/-- A `review_metrics` row keyed by review. -/
structure MetricsRow where
  review_id : String
  metrics : Metrics
deriving Repr, DecidableEq

/-- A `review_issues` row keyed by review. -/
structure IssueRow where
  review_id : String
  issue : Issue
deriving Repr, DecidableEq

/-- The five persisted collections read by the aggregator. -/
structure RecordStore where
  reviews : List Review
  code_reviews : List CodeReviewRow
  ai_analysis : List AiAnalysisRow
  review_metrics : List MetricsRow
  review_issues : List IssueRow
deriving Repr

/-- Result of the backend aggregate operation: the `forbidden` and `notFound`
failures carry no review data at all. -/
inductive AggregateResult where
  | notFound
  | forbidden
  | ok (r : DetailedReview)
deriving Repr, DecidableEq

/-- Modelled from the spec: the backend aggregate endpoint
`GET /review/{reviewId}?user_id={callerUserId}` is not among the repository
sources (only its frontend caller is), so its operation
`aggregate(reviewId, callerUserId)` follows §4.2 of the specification —
fetch the `Review` by id (`NotFound` if absent, `Forbidden` on ownership
mismatch with no partial leakage), gather the linked `CodeSubmission`,
`AiAnalysis`, `QualityMetrics` and `IssueList` rows, and merge them with the
embedded payload using the two-tier priority rules. -/
def aggregate (jsonParse : String → Option Payload) (store : RecordStore)
    (reviewId callerUserId : String) : AggregateResult :=
  match store.reviews.find? (fun r => r.id == reviewId) with
  | none => .notFound
  | some r =>
    if r.user_id != callerUserId then .forbidden
    else
      let cd := (store.code_reviews.find? (fun c => c.review_id == reviewId)).map
        fun c => ({ code := c.code, results := c.results } : CodeData)
      let ai := (store.ai_analysis.find? (fun a => a.review_id == reviewId)).map
        AiAnalysisRow.analysis
      let mets := (store.review_metrics.find? (fun m => m.review_id == reviewId)).map
        MetricsRow.metrics
      let iss := (store.review_issues.filter (fun i => i.review_id == reviewId)).map
        IssueRow.issue
      .ok (mergeDetailedReview jsonParse
        { review := r
          code_data := cd
          ai_analysis := ai
          metrics := mets
          detailed_issues := if iss.isEmpty then none else some iss })

/-- A review summary row of the history endpoint response: enough fields to
filter without a second fetch. -/
structure ReviewSummary where
  id : String
  title : String
  language : String
  status : String
  code : Option String
  description : Option String
  created_at : Nat
deriving Repr, DecidableEq

/-- JS `String.prototype.includes`: substring containment. -/
def strIncludes (s pat : String) : Bool :=
  decide (pat.data <:+: s.data)

/-- JS `String.prototype.toLowerCase`, as per-character lowercasing (a
structurally computable equivalent of the library `String.toLower`). -/
def strToLower (s : String) : String :=
  ⟨s.data.map Char.toLower⟩

/-- The `matchesSearch` predicate of `HistoryPage`: an empty query matches
everything, otherwise the lowercased query must occur in the lowercased
`language`, `title` or `code` (an absent `code` never matches via `?.`). -/
def matchesSearch (searchQuery : String) (item : ReviewSummary) : Bool :=
  searchQuery == "" ||
  strIncludes (strToLower item.language) (strToLower searchQuery) ||
  strIncludes (strToLower item.title) (strToLower searchQuery) ||
  (match item.code with
   | some c => strIncludes (strToLower c) (strToLower searchQuery)
   | none => false)

/-- The `matchesLanguage` predicate of `HistoryPage`: `"all"` keeps
everything, otherwise a case-insensitive exact match on `language`. -/
def matchesLanguage (languageFilter : String) (item : ReviewSummary) : Bool :=
  languageFilter == "all" || strToLower item.language == strToLower languageFilter

/-- The `.filter` stage of the `filtered` pipeline of `HistoryPage`. -/
def historyFilter (searchQuery languageFilter : String)
    (history : List ReviewSummary) : List ReviewSummary :=
  history.filter (fun item =>
    matchesSearch searchQuery item && matchesLanguage languageFilter item)

/-- The "`a` may stay before `b`" relation induced by the `HistoryPage` sort
comparator `sortBy === "newest" ? bDate - aDate : aDate - bDate` (a stable
sort places `a` before `b` whenever the comparator is nonpositive). -/
def historyCompareLe (sortBy : String) (a b : ReviewSummary) : Bool :=
  if sortBy == "newest" then decide (b.created_at ≤ a.created_at)
  else decide (a.created_at ≤ b.created_at)

/-- The `.sort` stage of the `filtered` pipeline of `HistoryPage`, modelled as
a stable sort under the comparator relation (JS `Array.prototype.sort` is
stable). -/
def historySort (sortBy : String) (l : List ReviewSummary) : List ReviewSummary :=
  l.mergeSort (historyCompareLe sortBy)

/-- The whole `filtered` pipeline of `HistoryPage`: filter, then stable sort. -/
def historyFiltered (searchQuery languageFilter sortBy : String)
    (history : List ReviewSummary) : List ReviewSummary :=
  historySort sortBy (historyFilter searchQuery languageFilter history)

/-- Decoded body of the history endpoint response: the JSON decode threw, or
produced an array of rows, or produced any non-array value. -/
inductive HistoryBody where
  | badJson
  | jsonNonArray
  | jsonArr (items : List ReviewSummary)
deriving Repr

/-- A history endpoint response: HTTP status plus decoded body. -/
structure HistoryResponse where
  status : Nat
  body : HistoryBody
deriving Repr

/-- The history fetch consumer of `HistoryPage`: a non-ok status throws before
the body is read, a JSON decode failure rejects, and both are caught with
`setHistory([])`; a decoded non-array value also yields `setHistory([])`;
only a decoded array is kept. (`res.ok` is status 200–299.) -/
def consumeHistoryResponse (resp : HistoryResponse) : List ReviewSummary :=
  if resp.status < 200 || 300 ≤ resp.status then []
  else
    match resp.body with
    | .badJson => []
    | .jsonNonArray => []
    | .jsonArr items => items

/-- The guard of the "No matching reviews found." card of `HistoryPage`:
`!loading && filtered.length === 0`. -/
def showNoMatching (loading : Bool) (filtered : List ReviewSummary) : Bool :=
  !loading && (filtered.length == 0)

/-! ## Sample data used by witnesses and counterexamples -/

/-- A review record builder for concrete test inputs. -/
def mkReview (id uid status : String) (score : Option Int) (created : Nat) : Review :=
  { id := id
    user_id := uid
    title := "Sample review"
    description := none
    language := "python"
    review_type := "general"
    status := status
    score := score
    created_at := created
    completed_at := none
    improvement_rate := none
    lines_of_code := none
    issues := none
    suggestions := none
    github_repo := none
    github_path := none }

/-- A concrete AI analysis value. -/
def sampleAnalysis : AiAnalysis :=
  { summary := "ok"
    strengths := ["clear naming"]
    improvements := ["add tests"]
    categories :=
      { performance := { score := 8, issues := 1, suggestions := 2 }
        security := { score := 7, issues := 0, suggestions := 1 }
        maintainability := { score := 9, issues := 0, suggestions := 0 }
        style := { score := 8, issues := 1, suggestions := 1 } } }

/-- A concrete metrics value with `complexity = 5`, as in the spec scenario. -/
def sampleMetrics : Metrics :=
  { complexity := 5
    maintainability_index := 70
    cyclomatic_complexity := 4
    cognitive_complexity := 3
    duplicated_lines := 0
    test_coverage := none }

/-- A `JSON.parse` model that fails on every string (models calling the parser
on undecodable text). -/
def parseNone : String → Option Payload := fun _ => none

/-! ## C1 — merged status equals the root status verbatim -/

/-- C1: for every review aggregated by the detail view, the `status` of the
merged `DetailedReview` equals the status of the root review record verbatim;
the merge of `code`, `ai_analysis`, `metrics` and `detailed_issues` never
overwrites, infers or defaults it, regardless of what the linked rows or the
embedded payload (which may carry its own conflicting `status`) contain. -/
theorem merged_status_verbatim (jsonParse : String → Option Payload)
    (rd : ReviewData) :
    (mergeDetailedReview jsonParse rd).review.status = rd.review.status := rfl

/-! ## C2 — linked rows win; field groups resolve independently -/

/-- C2: whenever a linked row exists for a field group it wins over the parsed
payload deterministically, and the groups resolve independently: a review with
a linked metrics row but no linked analysis takes `metrics` from the linked
row and `ai_analysis` from the payload fallback in the same aggregation. -/
theorem linked_row_priority (jsonParse : String → Option Payload)
    (rd : ReviewData) :
    (∀ a : AiAnalysis, rd.ai_analysis = some a →
      (mergeDetailedReview jsonParse rd).ai_analysis = some a) ∧
    (∀ m : Metrics, rd.metrics = some m →
      (mergeDetailedReview jsonParse rd).metrics = some m) ∧
    (∀ l : List Issue, rd.detailed_issues = some l →
      (mergeDetailedReview jsonParse rd).detailed_issues = some l) ∧
    (∀ (p : Payload) (a : AiAnalysis) (m : Metrics),
      rd.ai_analysis = none → rd.metrics = some m →
      parsedResultsOf jsonParse rd = some p → p.analysis = some a →
      (mergeDetailedReview jsonParse rd).metrics = some m ∧
      (mergeDetailedReview jsonParse rd).ai_analysis = some a) := by
  refine ⟨?_, ?_, ?_, ?_⟩
  · intro a ha
    simp [mergeDetailedReview, ha]
  · intro m hm
    simp [mergeDetailedReview, hm]
  · intro l hl
    simp [mergeDetailedReview, hl]
  · intro p a m hai hm hp hpa
    simp [mergeDetailedReview, hai, hm, hp, hpa]

/-- The payload of the C2 scenario: `results = '{"analysis":{"summary":"ok"}}'`. -/
def payloadC2 : Payload :=
  { analysis := some sampleAnalysis
    metrics := none
    issues := none
    status := none }

/-- A `JSON.parse` model decoding exactly the C2 scenario string. -/
def parseC2 : String → Option Payload := fun s =>
  if s = "\x7b\"analysis\":\x7b\"summary\":\"ok\"\x7d\x7d" then some payloadC2
  else none

/-- The C2 scenario review data: linked metrics row with `complexity = 5`, no
linked analysis, submission results carrying an `analysis` sub-field. -/
def rdC2 : ReviewData :=
  { review := mkReview "R1" "alice" "completed" (some 8) 1000
    code_data := some
      { code := "print(1)"
        results := some (.str "\x7b\"analysis\":\x7b\"summary\":\"ok\"\x7d\x7d") }
    ai_analysis := none
    metrics := some sampleMetrics
    detailed_issues := none }

/-- Witness for C2 at the spec scenario input. -/
theorem linked_row_priority_witness :
    (mergeDetailedReview parseC2 rdC2).metrics = some sampleMetrics ∧
    (mergeDetailedReview parseC2 rdC2).ai_analysis = some sampleAnalysis :=
  (linked_row_priority parseC2 rdC2).2.2.2 payloadC2 sampleAnalysis sampleMetrics
    rfl rfl rfl rfl

/-! ## C3 — malformed payload is absorbed locally -/

/-- A review whose submission results are an undecodable string but which also
has a linked analysis row. -/
def rdC3 : ReviewData :=
  { review := mkReview "R3" "alice" "completed" (some 7) 1300
    code_data := some { code := "x = 1", results := some (.str "not valid json") }
    ai_analysis := some sampleAnalysis
    metrics := none
    detailed_issues := none }

/-- C3 counterexample: the claim asserts that an undecodable results string
leaves `ai_analysis` unresolved for every such review, but a review that also
has a linked analysis row still resolves `ai_analysis` from the linked row. -/
theorem malformed_payload_counterexample :
    rdC3.code_data.bind CodeData.results = some (ResultsVal.str "not valid json") ∧
    parseNone "not valid json" = none ∧
    (mergeDetailedReview parseNone rdC3).ai_analysis = some sampleAnalysis ∧
    (mergeDetailedReview parseNone rdC3).ai_analysis ≠ none := by
  refine ⟨rfl, rfl, rfl, ?_⟩
  intro h
  rw [show (mergeDetailedReview parseNone rdC3).ai_analysis = some sampleAnalysis
    from rfl] at h
  exact Option.noConfusion h

/-- C3 amended: when the results field is a string that fails strict decoding,
the aggregation still succeeds as a whole and the malformed payload
contributes nothing — each field group equals the linked record alone, hence
`ai_analysis` and `metrics` are unresolved and `detailed_issues = []` whenever
no linked rows exist. -/
theorem malformed_payload_absorbed (jsonParse : String → Option Payload)
    (rd : ReviewData) (s : String)
    (hres : rd.code_data.bind CodeData.results = some (ResultsVal.str s))
    (hparse : jsonParse s = none) :
    useReviewDetailResult jsonParse (.ok rd) =
      .ok (mergeDetailedReview jsonParse rd) ∧
    (mergeDetailedReview jsonParse rd).ai_analysis = rd.ai_analysis ∧
    (mergeDetailedReview jsonParse rd).metrics = rd.metrics ∧
    (mergeDetailedReview jsonParse rd).detailed_issues =
      some (rd.detailed_issues.getD []) := by
  obtain ⟨cd, hcd, hcr⟩ := Option.bind_eq_some.mp hres
  have hp : parsedResultsOf jsonParse rd = none := by
    by_cases hs : s = ""
    · simp [parsedResultsOf, hcd, hcr, hs]
    · simp [parsedResultsOf, hcd, hcr, hs, hparse]
  exact ⟨rfl, by simp [mergeDetailedReview, hp], by simp [mergeDetailedReview, hp],
    by simp [mergeDetailedReview, hp]⟩

/-- Witness for the amended C3 at a concrete undecodable input. -/
theorem malformed_payload_absorbed_witness :
    useReviewDetailResult parseNone (.ok rdC3) =
      .ok (mergeDetailedReview parseNone rdC3) ∧
    (mergeDetailedReview parseNone rdC3).ai_analysis = rdC3.ai_analysis ∧
    (mergeDetailedReview parseNone rdC3).metrics = rdC3.metrics ∧
    (mergeDetailedReview parseNone rdC3).detailed_issues =
      some (rdC3.detailed_issues.getD []) :=
  malformed_payload_absorbed parseNone rdC3 "not valid json" rfl rfl

/-! ## C4 — access control of the aggregate operation (spec-modelled) -/

/-- C4: `aggregate` fails with `notFound` when no review exists for the id,
and with `forbidden` when the owning user differs from the caller; the
`forbidden` result is a bare constructor, so no field of the review is
included in the response. -/
theorem aggregate_access_control (jsonParse : String → Option Payload)
    (store : RecordStore) (rid uid : String) :
    (store.reviews.find? (fun r => r.id == rid) = none →
      aggregate jsonParse store rid uid = .notFound) ∧
    (∀ r : Review, store.reviews.find? (fun r => r.id == rid) = some r →
      r.user_id ≠ uid → aggregate jsonParse store rid uid = .forbidden) := by
  constructor
  · intro h
    simp [aggregate, h]
  · intro r hfind howner
    simp [aggregate, hfind, howner]

/-- A one-review store owned by `alice`. -/
def storeC4 : RecordStore :=
  { reviews := [mkReview "r1" "alice" "completed" (some 9) 1400]
    code_reviews := []
    ai_analysis := []
    review_metrics := []
    review_issues := [] }

/-- Witness for C4: a nonexistent id yields `notFound`, and a foreign caller
yields `forbidden`. -/
theorem aggregate_access_control_witness :
    aggregate parseNone storeC4 "missing-id" "alice" = .notFound ∧
    aggregate parseNone storeC4 "r1" "bob" = .forbidden :=
  ⟨(aggregate_access_control parseNone storeC4 "missing-id" "alice").1 rfl,
   (aggregate_access_control parseNone storeC4 "r1" "bob").2
     (mkReview "r1" "alice" "completed" (some 9) 1400) rfl (by decide)⟩

/-! ## C5 — the two-tier resolver and the issues default -/

/-- A review with no linked rows and no payload at all. -/
def rdC5 : ReviewData :=
  { review := mkReview "R5" "alice" "completed" (some 6) 1500
    code_data := none
    ai_analysis := none
    metrics := none
    detailed_issues := none }

/-- C5 counterexample: the claim asserts that all three field groups resolve
through the identical `primary ?? fallback ?? unresolved` function, but when
both sources are absent the merged `detailed_issues` is the empty list, not
the unresolved marker that `resolveFieldGroup` produces. -/
theorem resolveFieldGroup_issues_counterexample :
    rdC5.detailed_issues = none ∧
    parsedResultsOf parseNone rdC5 = none ∧
    resolveFieldGroup rdC5.detailed_issues
      ((parsedResultsOf parseNone rdC5).bind Payload.issues) = none ∧
    (mergeDetailedReview parseNone rdC5).detailed_issues = some [] ∧
    (mergeDetailedReview parseNone rdC5).detailed_issues ≠
      resolveFieldGroup rdC5.detailed_issues
        ((parsedResultsOf parseNone rdC5).bind Payload.issues) := by
  refine ⟨rfl, rfl, rfl, rfl, ?_⟩
  intro h
  rw [show resolveFieldGroup rdC5.detailed_issues
        ((parsedResultsOf parseNone rdC5).bind Payload.issues) = none from rfl,
    show (mergeDetailedReview parseNone rdC5).detailed_issues = some [] from rfl]
    at h
  exact Option.noConfusion h

/-- C5 amended: `ai_analysis` and `metrics` resolve exactly as
`resolveFieldGroup primary fallback = primary ?? fallback ?? unresolved`;
`detailed_issues` uses the same two-tier priority but replaces the final
unresolved marker with the empty list; the shared resolver returns the
primary whenever it is present and otherwise the fallback. -/
theorem resolveFieldGroup_refinement (jsonParse : String → Option Payload)
    (rd : ReviewData) :
    (mergeDetailedReview jsonParse rd).ai_analysis =
      resolveFieldGroup rd.ai_analysis
        ((parsedResultsOf jsonParse rd).bind Payload.analysis) ∧
    (mergeDetailedReview jsonParse rd).metrics =
      resolveFieldGroup rd.metrics
        ((parsedResultsOf jsonParse rd).bind Payload.metrics) ∧
    (mergeDetailedReview jsonParse rd).detailed_issues =
      some ((resolveFieldGroup rd.detailed_issues
        ((parsedResultsOf jsonParse rd).bind Payload.issues)).getD []) ∧
    (∀ (α : Type) (a : α) (f : Option α), resolveFieldGroup (some a) f = some a) ∧
    (∀ (α : Type) (f : Option α), resolveFieldGroup none f = f) :=
  ⟨rfl, rfl, rfl, fun _ _ _ => rfl, fun _ _ => rfl⟩

/-! ## C6 — gating of the completed-review sections -/

/-- A completed review with a resolved analysis but no score. -/
def rdC6 : ReviewData :=
  { review := mkReview "R6" "alice" "completed" none 1600
    code_data := none
    ai_analysis := some sampleAnalysis
    metrics := none
    detailed_issues := none }

/-- C6 counterexample: the claim asserts that both the score and the analysis
sections are displayed only if the score is present, but a completed review
with a resolved analysis and no score still renders the AI analysis section. -/
theorem completed_sections_counterexample :
    (mergeDetailedReview parseNone rdC6).review.status = "completed" ∧
    (mergeDetailedReview parseNone rdC6).review.score = none ∧
    (renderDetailPage none (some (mergeDetailedReview parseNone rdC6))).showAnalysisSection
      = true :=
  ⟨rfl, rfl, rfl⟩

/-- C6 amended: for a completed aggregated review, the score overview is
displayed iff the score is present and nonzero and the analysis is resolved,
while the AI analysis section is displayed iff the analysis is resolved
(independently of the score, the merged issues field being always present);
in every case the review shell is still rendered and no error is raised. -/
theorem completed_sections_gating (jsonParse : String → Option Payload)
    (rd : ReviewData) (h : rd.review.status = "completed") :
    (renderDetailPage none (some (mergeDetailedReview jsonParse rd))).showScoreOverview
      = (scoreTruthy rd.review.score &&
          (mergeDetailedReview jsonParse rd).ai_analysis.isSome) ∧
    (renderDetailPage none (some (mergeDetailedReview jsonParse rd))).showAnalysisSection
      = (mergeDetailedReview jsonParse rd).ai_analysis.isSome ∧
    (renderDetailPage none (some (mergeDetailedReview jsonParse rd))).showShell
      = true ∧
    (renderDetailPage none (some (mergeDetailedReview jsonParse rd))).isError
      = false := by
  have hst : (mergeDetailedReview jsonParse rd).review.status = "completed" := h
  have hiss : (mergeDetailedReview jsonParse rd).detailed_issues.isSome = true := rfl
  refine ⟨?_, ?_, rfl, rfl⟩
  · simp [renderDetailPage, hst]
    rfl
  · simp [renderDetailPage, hst, hiss]

/-- A completed review with a resolved analysis and score 8. -/
def rdC6w : ReviewData :=
  { review := mkReview "R6w" "alice" "completed" (some 8) 1650
    code_data := none
    ai_analysis := some sampleAnalysis
    metrics := none
    detailed_issues := none }

/-- Witness for the amended C6 at a concrete completed review. -/
theorem completed_sections_gating_witness :
    (renderDetailPage none (some (mergeDetailedReview parseNone rdC6w))).showScoreOverview
      = (scoreTruthy rdC6w.review.score &&
          (mergeDetailedReview parseNone rdC6w).ai_analysis.isSome) ∧
    (renderDetailPage none (some (mergeDetailedReview parseNone rdC6w))).showAnalysisSection
      = (mergeDetailedReview parseNone rdC6w).ai_analysis.isSome ∧
    (renderDetailPage none (some (mergeDetailedReview parseNone rdC6w))).showShell
      = true ∧
    (renderDetailPage none (some (mergeDetailedReview parseNone rdC6w))).isError
      = false :=
  completed_sections_gating parseNone rdC6w rfl

/-! ## C7 — pending versus in_progress rendering -/

/-- A pending review with a stale linked analysis row. -/
def rdC7p : ReviewData :=
  { review := mkReview "R7" "alice" "pending" none 1700
    code_data := none
    ai_analysis := some sampleAnalysis
    metrics := none
    detailed_issues := none }

/-- The same review with status `in_progress` instead. -/
def rdC7i : ReviewData :=
  { review := mkReview "R7" "alice" "in_progress" none 1700
    code_data := none
    ai_analysis := some sampleAnalysis
    metrics := none
    detailed_issues := none }

/-- C7 counterexample: two otherwise identical reviews, one `pending` and one
`in_progress`, do not produce the same rendering — only the pending one shows
the in-progress card, and the status icons differ. -/
theorem in_progress_rendering_counterexample :
    (renderDetailPage none (some (mergeDetailedReview parseNone rdC7p))).showPendingCard
      = true ∧
    (renderDetailPage none (some (mergeDetailedReview parseNone rdC7i))).showPendingCard
      = false ∧
    getStatusIcon "pending" ≠ getStatusIcon "in_progress" ∧
    renderDetailPage none (some (mergeDetailedReview parseNone rdC7p)) ≠
      renderDetailPage none (some (mergeDetailedReview parseNone rdC7i)) := by
  refine ⟨rfl, rfl, by decide, ?_⟩
  intro h
  have hc := congrArg DetailRender.showPendingCard h
  rw [show (renderDetailPage none (some (mergeDetailedReview parseNone rdC7p))).showPendingCard
      = true from rfl,
    show (renderDetailPage none (some (mergeDetailedReview parseNone rdC7i))).showPendingCard
      = false from rfl] at hc
  exact Bool.noConfusion hc

/-- C7 amended: for both `pending` and `in_progress` reviews no score or
analysis section is displayed even when legacy analysis rows exist, but the
"in progress" card is rendered only for `pending`; an `in_progress` review
shows neither the pending card nor the failed card. -/
theorem noncompleted_sections_suppressed (jsonParse : String → Option Payload)
    (rd : ReviewData)
    (h : rd.review.status = "pending" ∨ rd.review.status = "in_progress") :
    (renderDetailPage none (some (mergeDetailedReview jsonParse rd))).showScoreOverview
      = false ∧
    (renderDetailPage none (some (mergeDetailedReview jsonParse rd))).showAnalysisSection
      = false ∧
    (rd.review.status = "pending" →
      (renderDetailPage none (some (mergeDetailedReview jsonParse rd))).showPendingCard
        = true) ∧
    (rd.review.status = "in_progress" →
      (renderDetailPage none (some (mergeDetailedReview jsonParse rd))).showPendingCard
        = false ∧
      (renderDetailPage none (some (mergeDetailedReview jsonParse rd))).showFailedCard
        = false) := by
  have hst : (mergeDetailedReview jsonParse rd).review.status = rd.review.status := rfl
  rcases h with h | h <;>
    refine ⟨?_, ?_, ?_, ?_⟩ <;>
      simp_all [renderDetailPage, hst, h]

/-- Witness for the amended C7 at a concrete pending review with a stale
analysis row. -/
theorem noncompleted_sections_suppressed_witness :
    (renderDetailPage none (some (mergeDetailedReview parseNone rdC7p))).showScoreOverview
      = false ∧
    (renderDetailPage none (some (mergeDetailedReview parseNone rdC7p))).showAnalysisSection
      = false ∧
    (rdC7p.review.status = "pending" →
      (renderDetailPage none (some (mergeDetailedReview parseNone rdC7p))).showPendingCard
        = true) ∧
    (rdC7p.review.status = "in_progress" →
      (renderDetailPage none (some (mergeDetailedReview parseNone rdC7p))).showPendingCard
        = false ∧
      (renderDetailPage none (some (mergeDetailedReview parseNone rdC7p))).showFailedCard
        = false) :=
  noncompleted_sections_suppressed parseNone rdC7p (Or.inl rfl)

/-! ## C8/C9 — history filter and sort -/

/-- The sort comparator relation is transitive for both sort orders. -/
theorem historyCompareLe_trans (sortBy : String) (a b c : ReviewSummary)
    (h1 : historyCompareLe sortBy a b) (h2 : historyCompareLe sortBy b c) :
    historyCompareLe sortBy a c := by
  unfold historyCompareLe at h1 h2 ⊢
  cases hsb : (sortBy == "newest") <;> simp [hsb] at h1 h2 ⊢ <;> omega

/-- The sort comparator relation is total for both sort orders. -/
theorem historyCompareLe_total (sortBy : String) (a b : ReviewSummary) :
    historyCompareLe sortBy a b || historyCompareLe sortBy b a := by
  unfold historyCompareLe
  cases hsb : (sortBy == "newest") <;> simp [hsb] <;> omega

/-- Both sort orders yield a list whose `created_at` keys are monotone in the
corresponding direction. -/
theorem historySort_newest_sorted (l : List ReviewSummary) :
    (historySort "newest" l).Pairwise
      (fun a b => b.created_at ≤ a.created_at) := by
  have h := List.sorted_mergeSort
    (historyCompareLe_trans "newest") (historyCompareLe_total "newest") l
  refine h.imp ?_
  intro a b hab
  simpa [historyCompareLe] using hab

/-- The ascending counterpart of `historySort_newest_sorted`. -/
theorem historySort_oldest_sorted (l : List ReviewSummary) :
    (historySort "oldest" l).Pairwise
      (fun a b => a.created_at ≤ b.created_at) := by
  have h := List.sorted_mergeSort
    (historyCompareLe_trans "oldest") (historyCompareLe_total "oldest") l
  have hne : ("oldest" == "newest") = false := by decide
  refine h.imp ?_
  intro a b hab
  simpa [historyCompareLe, hne] using hab

/-- C8: the history filter keeps exactly the rows whose lowercased `language`,
`title` or `code` contains the lowercased query as a substring (with the
language filter at `"all"`), and on a list with pairwise distinct
`created_at` keys the newest and oldest sorts are exact reverses of each
other. -/
theorem listReviews_filter_and_sort_reversal (l : List ReviewSummary)
    (q : String) :
    historyFilter q "all" l = l.filter (fun item =>
      decide ((strToLower q).data <:+: (strToLower item.language).data) ||
      decide ((strToLower q).data <:+: (strToLower item.title).data) ||
      (item.code.elim false fun c =>
        decide ((strToLower q).data <:+: (strToLower c).data))) ∧
    (l.Pairwise (fun a b => a.created_at ≠ b.created_at) →
      historySort "newest" l = (historySort "oldest" l).reverse) := by
  constructor
  · unfold historyFilter
    apply List.filter_congr
    intro x _
    have hall : matchesLanguage "all" x = true := by simp [matchesLanguage]
    by_cases hq : q = ""
    · subst hq
      have hemp : strToLower "" = "" := rfl
      cases hc : x.code <;>
        simp [matchesSearch, hall, strIncludes, hemp, hc]
    · have hq' : (q == "") = false := by
        simpa using hq
      cases hc : x.code <;>
        simp [matchesSearch, hall, strIncludes, hq', hc]
  · intro hd
    have s1 := historySort_newest_sorted l
    have s2 := historySort_oldest_sorted l
    have p1 : historySort "newest" l ~ l := List.mergeSort_perm l _
    have p2 : historySort "oldest" l ~ l := List.mergeSort_perm l _
    have p3 : (historySort "oldest" l).reverse ~ l :=
      (List.reverse_perm _).trans p2
    have s2r : ((historySort "oldest" l).reverse).Pairwise
        (fun a b => b.created_at ≤ a.created_at) :=
      List.pairwise_reverse.mpr s2
    have hd1 : (historySort "newest" l).Pairwise
        (fun a b => a.created_at ≠ b.created_at) :=
      (p1.pairwise_iff (fun h => h.symm)).mpr hd
    have hd2 : ((historySort "oldest" l).reverse).Pairwise
        (fun a b => a.created_at ≠ b.created_at) :=
      (p3.pairwise_iff (fun h => h.symm)).mpr hd
    have st1 : (historySort "newest" l).Pairwise
        (fun a b => b.created_at < a.created_at) := by
      refine (s1.and hd1).imp ?_
      intro a b hab
      omega
    have st2 : ((historySort "oldest" l).reverse).Pairwise
        (fun a b => b.created_at < a.created_at) := by
      refine (s2r.and hd2).imp ?_
      intro a b hab
      omega
    have hperm : historySort "newest" l ~ (historySort "oldest" l).reverse :=
      p1.trans p3.symm
    haveI : IsAntisymm ReviewSummary (fun a b => b.created_at < a.created_at) :=
      ⟨by intro a b h1 h2; exact absurd h1 (by omega)⟩
    exact List.eq_of_perm_of_sorted hperm st1 st2

/-- A summary row builder for concrete history inputs. -/
def mkSummary (id title lang : String) (code : Option String) (created : Nat) :
    ReviewSummary :=
  { id := id
    title := title
    language := lang
    status := "completed"
    code := code
    description := none
    created_at := created }

/-- A concrete fetched history with pairwise distinct timestamps. -/
def histSample : List ReviewSummary :=
  [mkSummary "h1" "Sorting helper" "Python" (some "def s(): pass") 300,
   mkSummary "h2" "Parser" "TypeScript" none 100,
   mkSummary "h3" "PYTHON tricks" "go" (some "package main") 200]

/-- Witness for C8 at a concrete history and query. -/
theorem listReviews_filter_and_sort_reversal_witness :
    historyFilter "py" "all" histSample = histSample.filter (fun item =>
      decide ((strToLower "py").data <:+: (strToLower item.language).data) ||
      decide ((strToLower "py").data <:+: (strToLower item.title).data) ||
      (item.code.elim false fun c =>
        decide ((strToLower "py").data <:+: (strToLower c).data))) ∧
    historySort "newest" histSample = (historySort "oldest" histSample).reverse :=
  ⟨(listReviews_filter_and_sort_reversal histSample "py").1,
   (listReviews_filter_and_sort_reversal histSample "py").2 (by decide)⟩

/-- C9: the filter/sort pipeline of the history page is a pure function of
the fetched sequence — applying the same filter and sort to its own output
returns the same sequence, and the stable sort preserves the relative order
of rows with equal `created_at` (rows are never mutated: the pipeline is a
function from the source list to a new list). -/
theorem historyFiltered_idempotent_stable (q lf sb : String)
    (l : List ReviewSummary) :
    historyFiltered q lf sb (historyFiltered q lf sb l) =
      historyFiltered q lf sb l ∧
    (∀ t : Nat, (historySort sb l).filter (fun x => x.created_at == t) =
      l.filter (fun x => x.created_at == t)) := by
  constructor
  · unfold historyFiltered
    have hfX : historyFilter q lf
        (historySort sb (historyFilter q lf l)) =
        historySort sb (historyFilter q lf l) := by
      unfold historyFilter
      apply List.filter_eq_self.mpr
      intro x hx
      have hx' : x ∈ historyFilter q lf l := by
        unfold historySort at hx
        exact List.mem_mergeSort.mp hx
      exact (List.mem_filter.mp hx').2
    rw [hfX]
    unfold historySort
    exact List.mergeSort_of_sorted
      (List.sorted_mergeSort (historyCompareLe_trans sb)
        (historyCompareLe_total sb) _)
  · intro t
    have hsubA : (l.filter fun x => x.created_at == t) <+ l :=
      List.filter_sublist l
    have hpairA : (l.filter fun x => x.created_at == t).Pairwise
        (fun a b => historyCompareLe sb a b) := by
      apply List.pairwise_of_forall_mem_list
      intro a ha b hb
      have ha' : a.created_at = t := by
        simpa using (List.mem_filter.mp ha).2
      have hb' : b.created_at = t := by
        simpa using (List.mem_filter.mp hb).2
      unfold historyCompareLe
      cases hsb : (sb == "newest") <;> simp [ha', hb']
    have hstab : (l.filter fun x => x.created_at == t) <+ historySort sb l :=
      List.sublist_mergeSort (historyCompareLe_trans sb)
        (historyCompareLe_total sb) hpairA hsubA
    have hAA : (l.filter fun x => x.created_at == t).filter
        (fun x => x.created_at == t) = l.filter fun x => x.created_at == t := by
      apply List.filter_eq_self.mpr
      intro x hx
      exact (List.mem_filter.mp hx).2
    have hsub2 : (l.filter fun x => x.created_at == t) <+
        (historySort sb l).filter (fun x => x.created_at == t) := by
      have := hstab.filter (fun x => x.created_at == t)
      rwa [hAA] at this
    have hperm : (historySort sb l).filter (fun x => x.created_at == t) ~
        l.filter fun x => x.created_at == t :=
      (List.mergeSort_perm l _).filter _
    exact (hsub2.eq_of_length hperm.length_eq.symm).symm

/-! ## C10 — malformed history responses degrade to the empty list -/

/-- C10: whenever the history response has an error status, fails to decode,
or decodes to a non-array value, the consumer sets the displayed sequence to
the empty list; the filter/sort pipeline over it is empty and the
"no matching reviews" card is shown once loading ends — never a crash or
partial data. -/
theorem history_error_degrades_to_empty (resp : HistoryResponse)
    (q lf sb : String)
    (h : resp.status < 200 ∨ 300 ≤ resp.status ∨
      resp.body = HistoryBody.badJson ∨ resp.body = HistoryBody.jsonNonArray) :
    consumeHistoryResponse resp = [] ∧
    historyFiltered q lf sb (consumeHistoryResponse resp) = [] ∧
    showNoMatching false
      (historyFiltered q lf sb (consumeHistoryResponse resp)) = true := by
  have hempty : consumeHistoryResponse resp = [] := by
    unfold consumeHistoryResponse
    rcases h with h | h | h | h
    · simp [h]
    · simp [h]
    · by_cases hst : resp.status < 200 ∨ 300 ≤ resp.status
      · rcases hst with hst | hst <;> simp [hst]
      · push_neg at hst
        simp [Nat.not_lt.mpr hst.1, Nat.not_le.mpr hst.2, h]
    · by_cases hst : resp.status < 200 ∨ 300 ≤ resp.status
      · rcases hst with hst | hst <;> simp [hst]
      · push_neg at hst
        simp [Nat.not_lt.mpr hst.1, Nat.not_le.mpr hst.2, h]
  refine ⟨hempty, ?_, ?_⟩ <;>
    simp [hempty, historyFiltered, historyFilter, historySort, showNoMatching]

/-- Witness for C10 at a concrete 404 response and a concrete ok-status
response with an undecodable body. -/
theorem history_error_degrades_to_empty_witness :
    consumeHistoryResponse { status := 404, body := .jsonArr histSample } = [] ∧
    historyFiltered "py" "all" "newest"
      (consumeHistoryResponse { status := 404, body := .jsonArr histSample }) = [] ∧
    showNoMatching false (historyFiltered "py" "all" "newest"
      (consumeHistoryResponse { status := 404, body := .jsonArr histSample })) = true ∧
    consumeHistoryResponse { status := 200, body := .badJson } = [] :=
  ⟨(history_error_degrades_to_empty { status := 404, body := .jsonArr histSample }
      "py" "all" "newest" (Or.inr (Or.inl (by decide)))).1,
   (history_error_degrades_to_empty { status := 404, body := .jsonArr histSample }
      "py" "all" "newest" (Or.inr (Or.inl (by decide)))).2.1,
   (history_error_degrades_to_empty { status := 404, body := .jsonArr histSample }
      "py" "all" "newest" (Or.inr (Or.inl (by decide)))).2.2,
   (history_error_degrades_to_empty { status := 200, body := .badJson }
      "py" "all" "newest" (Or.inr (Or.inr (Or.inl rfl)))).1⟩

end JBL
